import Mathlib

/-!
Verification of the extraction pipeline of the canvas.be / een.be / vrt.be
and vier.be / vijf.be extractors (files canvas.py and vier.py).

The network, the regular-expression engine and the JSON parser are external
collaborators: each fetch or pattern match is passed in as an explicit input
(an oracle function), and the definitions below translate the control flow
the source files build on top of those collaborators.  Helpers that live in
the host library rather than in the two source files (the format sorter,
the regex search with default, numeric coercions) are modelled from the
specification and carry a doc comment saying so.
-/

set_option autoImplicit false
set_option linter.unusedVariables false

namespace YdlCanvas

/-- Errors an extraction can abort with, mirroring the error kinds of the
error-handling design: a required pattern that did not match, the sorter
finding no formats, login problems, and a raw Python attribute error for a
method call on a None value. -/
inductive ExtractErr where
  | regexNotFound (name : String)
  | noPlayableFormats
  | loginRequired
  | extractorError (msg : String)
  | attributeError (msg : String)
  deriving DecidableEq, Repr

/-- Python truthiness of an optional string: None and the empty string are
falsy, every other string is truthy. -/
def truthyOpt (s : Option String) : Bool :=
  match s with
  | none => false
  | some t => t ≠ ""

/-- One entry of the targetUrls list of the media-asset API response; both
keys are read with dict.get and may be absent. -/
structure TargetEntry where
  url : Option String
  type : Option String
  deriving DecidableEq, Repr

/-- One playable variant as accumulated by the formats loop of
CanvasIE._extract_info: a format id and a URL. -/
structure FormatDesc where
  format_id : String
  url : String
  deriving DecidableEq, Repr

/-- Modelled from the spec: the manifest parsers (HLS, HDS, DASH) are host
library routines called with fatal disabled, so a parse failure yields no
formats and raises nothing; the oracle returns none on parse failure and the
wrapper turns that into the empty format list. -/
def nonFatal (r : Option (List FormatDesc)) : List FormatDesc :=
  r.getD []

/-- Body of the targetUrls loop of CanvasIE._extract_info for one entry:
skip the entry when its url or its type is falsy, dispatch HLS / HDS /
MPEG_DASH to the corresponding non-fatal manifest parser, and otherwise
emit a single format whose id is the type tag and whose url is the entry
url.  The three oracles stand for the three manifest parsers. -/
def resolveTarget (pHLS pHDS pDASH : String → Option (List FormatDesc))
    (t : TargetEntry) : List FormatDesc :=
  if ¬ truthyOpt t.url ∨ ¬ truthyOpt t.type then []
  else
    let format_url := t.url.getD ""
    let format_type := t.type.getD ""
    if format_type = "HLS" then nonFatal (pHLS format_url)
    else if format_type = "HDS" then nonFatal (pHDS format_url)
    else if format_type = "MPEG_DASH" then nonFatal (pDASH format_url)
    else [⟨format_type, format_url⟩]

/-- Modelled from the spec: the host library format sorter raises a fatal
"no playable media found" error when the accumulated list is empty and
otherwise reorders it by preference; no claim concerns the ordering, so the
reordering is modelled as the identity. -/
def sort_formats (fs : List FormatDesc) : Except ExtractErr (List FormatDesc) :=
  if fs.isEmpty then .error .noPlayableFormats else .ok fs

/-- The formats part of CanvasIE._extract_info: fold the targetUrls list
through the per-entry loop body and hand the accumulated list to the
sorter. -/
def extract_info_formats (pHLS pHDS pDASH : String → Option (List FormatDesc))
    (targets : List TargetEntry) : Except ExtractErr (List FormatDesc) :=
  sort_formats (targets.foldl (fun acc t => acc ++ resolveTarget pHLS pHDS pDASH t) [])

/-- One entry of the subtitleUrls list, both keys read with dict.get. -/
structure SubtitleRef where
  url : Option String
  type : Option String
  deriving DecidableEq, Repr

/-- The subtitleUrls value of the API response as seen by the isinstance
check: either an actual list of entries or some non-list value. -/
inductive SubtitleUrlsVal where
  | list (xs : List SubtitleRef)
  | nonList
  deriving Repr

/-- Python dict.setdefault(key, []).append(v) on a mapping from language to
list of subtitle urls, represented as an association list. -/
def setdefaultAppend : List (String × List String) → String → String →
    List (String × List String)
  | [], k, v => [(k, [v])]
  | (k', vs) :: rest, k, v =>
    if k' = k then (k', vs ++ [v]) :: rest
    else (k', vs) :: setdefaultAppend rest k v

/-- Retention test of the subtitles loop of CanvasIE._extract_info: the url
must be truthy and the type must be exactly CLOSED. -/
def subtitleRetained (s : SubtitleRef) : Bool :=
  truthyOpt s.url && s.type == some "CLOSED"

/-- One iteration of the subtitles loop of CanvasIE._extract_info: append
the url of a retained entry under the fixed language key nl, keep the
mapping unchanged otherwise. -/
def subtitleStep (subs : List (String × List String)) (s : SubtitleRef) :
    List (String × List String) :=
  if subtitleRetained s then setdefaultAppend subs "nl" (s.url.getD "") else subs

/-- The subtitles part of CanvasIE._extract_info: start from an empty
mapping, and for each entry of a list-valued subtitleUrls whose url is
truthy and whose type is CLOSED, append the url under the fixed language
key nl; a non-list subtitleUrls leaves the mapping empty. -/
def extractSubtitles (sv : SubtitleUrlsVal) : List (String × List String) :=
  match sv with
  | .nonList => []
  | .list xs => xs.foldl subtitleStep []

/-- Modelled from the spec: the host library numeric coercion that divides
an optional millisecond value by a scale with fractional precision
retained; numbers are modelled as rationals. -/
def float_or_none (v : Option ℚ) (scale : ℚ) : Option ℚ :=
  v.map (fun x => x / scale)

/-- The duration field of the record built by CanvasIE._extract_info: the
millisecond duration of the API response divided by 1000. -/
def durationConv (v : Option ℚ) : Option ℚ :=
  float_or_none v 1000

/-- Accumulating digit scan: consume decimal digits, extending the
accumulator, and fail at the first non-digit character. -/
def parseDigitsAux : List Char → Nat → Option Nat
  | [], acc => some acc
  | c :: cs, acc =>
    if c.isDigit then parseDigitsAux cs (acc * 10 + (c.toNat - 48)) else none

/-- Parse a non-empty all-digit character list as a natural number. -/
def parseDigits : List Char → Option Nat
  | [] => none
  | c :: cs => if c.isDigit then parseDigitsAux cs (c.toNat - 48) else none

/-- Integer parse of a string: an optional sign followed by at least one
digit; anything else fails. -/
def pyInt (s : String) : Option Int :=
  match s.toList with
  | '-' :: cs => (parseDigits cs).map (fun n => -(n : Int))
  | '+' :: cs => (parseDigits cs).map (fun n => (n : Int))
  | cs => (parseDigits cs).map (fun n => (n : Int))

/-- Modelled from the spec: the host library integer coercion that parses a
string as an integer and yields none when the string does not parse. -/
def int_or_none (s : Option String) : Option Int :=
  s.bind pyInt

/-- The season_number computation of VrtNUIE._real_extract: parse the
scraped season string as an integer, then discard the value as a
misidentified year when it is truthy and greater than 1000. -/
def seasonNumber (season : Option String) : Option Int :=
  let sn := int_or_none season
  match sn with
  | none => none
  | some n => if n ≠ 0 ∧ n > 1000 then none else some n

/-- Result of a run of a fallible computation, as a Boolean. -/
def exceptOk {ε α : Type} : Except ε α → Bool
  | .ok _ => true
  | .error _ => false

/-- Modelled from the spec: the host regex search used with an explicit
default — when the pattern fails to match, the given default is returned
and nothing is raised.  The oracle argument is the match result of the
external regex engine. -/
def search_regex_opt (m : Option String) (d : Option String) : Option String :=
  match m with
  | some v => some v
  | none => d

/-- Modelled from the spec: the host regex search used without a default —
when the pattern fails to match, a named extraction error aborts the whole
request. -/
def search_regex_req (m : Option String) (name : String) : Except ExtractErr String :=
  match m with
  | some v => .ok v
  | none => .error (.regexNotFound name)

/-- Python str.strip() applied to an optional value: on None the attribute
access raises an AttributeError, on a string it trims surrounding
whitespace. -/
def pyStrip (v : Option String) : Except ExtractErr String :=
  match v with
  | none => .error (.attributeError "NoneType object has no attribute strip")
  | some s => .ok s.trim

/-- Python or applied to an optional-string left operand and a fallible
right operand: keep the left operand when it is truthy, otherwise evaluate
the right operand. -/
def pyOr (a : Option String) (b : Except ExtractErr String) : Except ExtractErr String :=
  if truthyOpt a then .ok (a.getD "") else b

/-- The title computation of VrtNUIE._real_extract: a pattern search with
default None, followed by an unconditional strip of the result. -/
def vrtnuTitle (m : Option String) : Except ExtractErr String :=
  pyStrip (search_regex_opt m none)

/-- The title computation of CanvasIE._real_extract: a markup-specific
pattern with default None, falling back to the page-metadata og title
lookup (required, so a miss raises), then strip. -/
def canvasTitle (h1m ogm : Option String) : Except ExtractErr String :=
  match pyOr (search_regex_opt h1m none) (search_regex_req ogm "title") with
  | .error e => .error e
  | .ok s => pyStrip (some s)

/-- The video id computation of CanvasIE._real_extract: a required pattern
search that raises a named extraction error when the pattern misses. -/
def canvasVideoId (m : Option String) : Except ExtractErr String :=
  search_regex_req m "video id"

/-- An optional field lookup (description, thumbnail, season, episode,
release date): a pattern search with default None that never raises. -/
def optionalField (m : Option String) : Option String :=
  search_regex_opt m none

/-- The three network round trips of the VrtNU login handshake, in the
order VrtNUIE._login performs them. -/
inductive VrtStep where
  | credentialPost
  | savedResponseFetch
  | tokenRequest
  deriving DecidableEq, Repr

/-- The signed identity assertion unwrapped from the JSONP saved response:
user id, signature, timestamp and profile email. -/
structure AuthInfo where
  uid : String
  uidsig : String
  ts : String
  email : String
  deriving Repr

/-- VrtNUIE._login: abort with a login-required error when no username is
configured; POST the credentials; abort with the missing-cookies extractor
error when the gigya cookie jar lacks ucid or gmid; fetch the JSONP saved
response and unwrap it with a required regex (a miss is fatal); parse the
payload (a parse failure is fatal); finally request the first-party token.
The result pairs the list of network steps actually performed with the
outcome.  The cookie jar, the regex match and the JSON parse are oracle
inputs standing for the external collaborators. -/
def vrt_login (username password : Option String) (cookies : List String)
    (savedMatch : Option String) (parseAuth : String → Option AuthInfo) :
    List VrtStep × Except ExtractErr Unit :=
  match username with
  | none => ([], .error .loginRequired)
  | some _ =>
    if ¬ cookies.contains "ucid" ∨ ¬ cookies.contains "gmid" then
      ([VrtStep.credentialPost], .error (.extractorError "Unable to login: missing cookies"))
    else
      match savedMatch with
      | none =>
        ([VrtStep.credentialPost, VrtStep.savedResponseFetch],
         .error (.regexNotFound "auth_info_js"))
      | some js =>
        match parseAuth js with
        | none =>
          ([VrtStep.credentialPost, VrtStep.savedResponseFetch],
           .error (.extractorError "auth_info"))
        | some _ =>
          ([VrtStep.credentialPost, VrtStep.savedResponseFetch, VrtStep.tokenRequest],
           .ok ())

/-- Session state read off a login run: logged in exactly when the token
request step was reached and the run did not abort. -/
def vrtLoggedIn (r : List VrtStep × Except ExtractErr Unit) : Bool :=
  r.1.contains VrtStep.tokenRequest && exceptOk r.2

end YdlCanvas

namespace YdlVier

open YdlCanvas

/-- Effects a login attempt could perform: reading stored credentials,
issuing network requests, raising an error. -/
structure VierEffects where
  credentialsRead : Bool
  requests : List String
  raised : Bool
  deriving DecidableEq, Repr

/-- The empty effect record: nothing read, no request, nothing raised. -/
def noEffects : VierEffects := ⟨false, [], false⟩

/-- VierIE._real_initialize: the logged-in flag starts out False. -/
def vierInitialLoggedIn : Bool := false

/-- VierIE._login: the first statement of the body is a bare return, so the
routine ends at once; the credential lookup, the login POST and the flag
update that follow it are unreachable.  The result is the unchanged
logged-in flag paired with the effects performed: none. -/
def vier_login (logged_in : Bool) (site : String) : Bool × VierEffects :=
  (logged_in, noEffects)

/-- The login step of VierIE._real_extract: call _login only when the
logged-in flag is not set. -/
def vierLoginStep (logged_in : Bool) (site : String) : Bool × VierEffects :=
  if logged_in then (logged_in, noEffects) else vier_login logged_in site

/-- The video id computation of VierIE._real_extract: a required pattern
search that raises a named extraction error when the pattern misses. -/
def vierVideoId (m : Option String) : Except ExtractErr String :=
  search_regex_req m "video id"

/-- URL of listing page n of a program, as VierVideosIE._real_extract
formats it. -/
def pageUrl (site program : String) (n : Nat) : String :=
  "http://www." ++ site ++ ".be/" ++ program ++ "/videos?page=" ++ toString n

/-- Character-list test: does the needle occur at the very start of the
haystack. -/
def startsWithChars : List Char → List Char → Bool
  | _, [] => true
  | [], _ :: _ => false
  | c :: cs, d :: ds => c = d && startsWithChars cs ds

/-- Character-list substring test: does the needle occur anywhere in the
haystack. -/
def containsChars : List Char → List Char → Bool
  | [], needle => needle.isEmpty
  | c :: cs, needle => startsWithChars (c :: cs) needle || containsChars cs needle

/-- Python substring containment, used for the more-results marker test. -/
def strContains (hay needle : String) : Bool :=
  containsChars hay.toList needle.toList

/-- The more-results marker the listing loop looks for. -/
def meerMarker : String := ">Meer<"

/-- The page loop of VierVideosIE._real_extract, with explicit fuel in
place of the unbounded iterator: fetch the current page, extract its child
links (the external regex is the extractLinks oracle), prefix each with the
site root, append them to the accumulator, record the fetched page number,
and stop when the break flag is set or the page lacks the more-results
marker; otherwise continue with the next page number.  The break flag
models the Python int truthiness of page_id in the break condition, so it
is False both without an explicit page and with explicit page 0. -/
def walkLoop (fetch : String → String) (extractLinks : String → List String)
    (site program : String) (breakAlways : Bool) :
    Nat → Nat → List String → List Nat → Option (List String × List Nat)
  | 0, _, _, _ => none
  | fuel + 1, cur, acc, fetched =>
    let content := fetch (pageUrl site program cur)
    let pageEntries :=
      (extractLinks content).map (fun u => "http://www." ++ site ++ ".be" ++ u)
    let acc2 := acc ++ pageEntries
    let fetched2 := fetched ++ [cur]
    if breakAlways || ¬ strContains content meerMarker then some (acc2, fetched2)
    else walkLoop fetch extractLinks site program breakAlways fuel (cur + 1) acc2 fetched2

/-- The listing record VierVideosIE._real_extract returns: a playlist
identifier and the accumulated child-URL entries. -/
structure PlaylistResult where
  playlist_id : String
  entries : List String
  deriving DecidableEq, Repr

/-- VierVideosIE._real_extract: with an explicit page the walk starts
there and the playlist identifier gets a page suffix, otherwise the walk
starts at 0 and the identifier is the bare program name.  The walk result
is paired with the list of page numbers fetched; none means the fuel ran
out, which models the loop never reaching a break. -/
def vierVideosExtract (fetch : String → String) (extractLinks : String → List String)
    (site program : String) (page : Option Nat) (fuel : Nat) :
    Option (PlaylistResult × List Nat) :=
  let start_page := page.getD 0
  let playlist_id :=
    match page with
    | some n => program ++ "-page" ++ toString n
    | none => program
  let breakAlways :=
    match page with
    | some n => decide (n ≠ 0)
    | none => false
  (walkLoop fetch extractLinks site program breakAlways fuel start_page [] []).map
    (fun r => (⟨playlist_id, r.1⟩, r.2))

end YdlVier

namespace YdlCanvas

theorem foldl_append_eq {α β : Type} (f : α → List β) (ts : List α) (acc : List β) :
    ts.foldl (fun a t => a ++ f t) acc = acc ++ (ts.map f).flatten := by
  induction ts generalizing acc with
  | nil => simp
  | cons t ts ih => simp [ih, List.append_assoc]

/-- C1: for every targetUrls input list given to the format resolver, no
individual entry ever makes the loop raise — the resolver either succeeds
or fails with the no-playable-formats error — and it fails exactly when
every entry of the list contributes no format (in particular on the empty
list). -/
theorem resolver_raises_only_when_no_formats
    (pH pD pM : String → Option (List FormatDesc)) (ts : List TargetEntry) :
    (extract_info_formats pH pD pM ts = .error .noPlayableFormats ↔
      ts.all (fun t => (resolveTarget pH pD pM t).isEmpty) = true) ∧
    (exceptOk (extract_info_formats pH pD pM ts) = true ∨
      extract_info_formats pH pD pM ts = .error .noPlayableFormats) := by
  have hfold := foldl_append_eq (resolveTarget pH pD pM) ts []
  have hiff : ((ts.map (resolveTarget pH pD pM)).flatten = []) ↔
      (ts.all (fun t => (resolveTarget pH pD pM t).isEmpty) = true) := by
    simp [List.flatten_eq_nil_iff, List.all_eq_true, List.isEmpty_iff]
  unfold extract_info_formats sort_formats
  rw [hfold, List.nil_append]
  constructor
  · constructor
    · intro he
      by_cases h : (ts.map (resolveTarget pH pD pM)).flatten = []
      · exact hiff.mp h
      · simp [List.isEmpty_iff, h] at he
    · intro ha
      simp [List.isEmpty_iff, hiff.mpr ha]
  · by_cases h : (ts.map (resolveTarget pH pD pM)).flatten = []
    · right
      simp [List.isEmpty_iff, h]
    · left
      simp [exceptOk, List.isEmpty_iff, h]

theorem resolver_raises_only_when_no_formats_witness :
    extract_info_formats (fun _ => none) (fun _ => none) (fun _ => none) [] =
      .error .noPlayableFormats :=
  (resolver_raises_only_when_no_formats
    (fun _ => none) (fun _ => none) (fun _ => none) []).1.mpr (by decide)

/-- C4: evaluation of the field extractions at pages where the pattern
fails to match.  Optional fields default to absent without raising, and
the required video ids and the Canvas title raise a named extraction
error; but the required VrtNU title instead crashes with a raw attribute
error on the None default, not a named extraction error. -/
theorem required_field_error_evaluation :
    vrtnuTitle none = .error (.attributeError "NoneType object has no attribute strip") ∧
    canvasVideoId none = .error (.regexNotFound "video id") ∧
    YdlVier.vierVideoId none = .error (.regexNotFound "video id") ∧
    canvasTitle none none = .error (.regexNotFound "title") ∧
    optionalField none = none := by
  exact ⟨rfl, rfl, rfl, rfl, rfl⟩

/-- C5: a season string parsing to an integer above 1000 is discarded as a
misidentified year, any other parsed value is kept; in particular the
string 2015 yields no season number and the string 3 yields 3. -/
theorem season_year_heuristic :
    seasonNumber (some "2015") = none ∧ seasonNumber (some "3") = some 3 ∧
    ∀ s n, int_or_none s = some n →
      ((n > 1000 → seasonNumber s = none) ∧ (¬ n > 1000 → seasonNumber s = some n)) := by
  refine ⟨by decide, by decide, ?_⟩
  intro s n h
  constructor
  · intro hn
    simp [seasonNumber, h]
    omega
  · intro hn
    simp [seasonNumber, h]
    omega

theorem season_year_heuristic_witness :
    seasonNumber (some "1001") = none ∧ seasonNumber (some "1000") = some 1000 :=
  ⟨(season_year_heuristic.2.2 (some "1001") 1001 (by decide)).1 (by norm_num),
   (season_year_heuristic.2.2 (some "1000") 1000 (by decide)).2 (by norm_num)⟩

/-- C6 counterexample: the millisecond-to-seconds conversion maps 49020 to
49.02, but applying the conversion to its own output divides by 1000
again, so the conversion is not idempotent. -/
theorem duration_conversion_not_idempotent :
    durationConv (some 49020) = some (2451 / 50) ∧
    durationConv (durationConv (some 49020)) ≠ durationConv (some 49020) := by
  constructor
  · norm_num [durationConv, float_or_none]
  · norm_num [durationConv, float_or_none]

/-- C6 amended: the conversion divides a millisecond value by 1000 with
fractional precision retained (49020 maps to 49.02) and maps an absent
value to absent; it is not idempotent — reapplying it divides by 1000
again, and only the value 0 is a fixed point. -/
theorem duration_ms_to_seconds (v : ℚ) :
    durationConv (some v) = some (v / 1000) ∧ durationConv none = none ∧
    (durationConv (durationConv (some v)) = durationConv (some v) ↔ v = 0) := by
  refine ⟨rfl, rfl, ?_⟩
  simp only [durationConv, float_or_none, Option.map_some', Option.some.injEq]
  constructor
  · intro h
    have h2 : v / 1000 / 1000 * 1000000 = v / 1000 * 1000000 := by rw [h]
    have h3 : v = v * 1000 := by
      field_simp at h2
      linarith
    linarith
  · intro h
    rw [h]
    norm_num

theorem duration_ms_to_seconds_witness :
    durationConv (some 49020) = some (49020 / 1000) :=
  (duration_ms_to_seconds 49020).1

theorem truthyOpt_getD {o : Option String} (h : truthyOpt o = true) : o.getD "" ≠ "" := by
  cases o with
  | none => simp [truthyOpt] at h
  | some s => simpa [truthyOpt] using h

/-- C7 counterexample: an entry carrying a URL but no type is dropped
silently — it contributes no format and raises nothing — so being dropped
is not equivalent to lacking both the URL and the type. -/
theorem entry_with_url_only_dropped :
    ¬ ((resolveTarget (fun _ => none) (fun _ => none) (fun _ => none)
          ⟨some "http://a/x.m3u8", none⟩ = []) ↔
       (truthyOpt (some "http://a/x.m3u8") = false ∧
        truthyOpt (none : Option String) = false)) := by
  decide

/-- C7 amended: an entry is dropped before dispatch, contributing no
format and raising nothing, exactly when its URL or its type is missing or
empty; every processed entry is dispatched — an HLS, HDS or MPEG_DASH
entry to the matching non-fatal manifest parser, an entry with any other
type to a single descriptor whose id is the type tag and whose URL is the
entry URL — and every descriptor in the output carries a non-empty URL
(the last part under the spec-modelled contract that the host manifest
parsers only emit descriptors carrying URLs). -/
theorem resolver_entry_characterization
    (pH pD pM : String → Option (List FormatDesc)) (t : TargetEntry) :
    ((truthyOpt t.url = false ∨ truthyOpt t.type = false) →
      resolveTarget pH pD pM t = []) ∧
    (truthyOpt t.url = true → truthyOpt t.type = true →
      t.type.getD "" ≠ "HLS" → t.type.getD "" ≠ "HDS" → t.type.getD "" ≠ "MPEG_DASH" →
      resolveTarget pH pD pM t = [⟨t.type.getD "", t.url.getD ""⟩]) ∧
    (truthyOpt t.url = true → t.type = some "HLS" →
      resolveTarget pH pD pM t = nonFatal (pH (t.url.getD ""))) ∧
    (truthyOpt t.url = true → t.type = some "HDS" →
      resolveTarget pH pD pM t = nonFatal (pD (t.url.getD ""))) ∧
    (truthyOpt t.url = true → t.type = some "MPEG_DASH" →
      resolveTarget pH pD pM t = nonFatal (pM (t.url.getD ""))) ∧
    ((∀ u fs, pH u = some fs → ∀ f ∈ fs, f.url ≠ "") →
     (∀ u fs, pD u = some fs → ∀ f ∈ fs, f.url ≠ "") →
     (∀ u fs, pM u = some fs → ∀ f ∈ fs, f.url ≠ "") →
      ∀ f ∈ resolveTarget pH pD pM t, f.url ≠ "") := by
  refine ⟨?_, ?_, ?_, ?_, ?_, ?_⟩
  · intro h
    unfold resolveTarget
    rcases h with h | h <;> simp [h]
  · intro hu ht h1 h2 h3
    unfold resolveTarget
    simp [hu, ht, h1, h2, h3]
  · intro hu ht
    have ht2 : truthyOpt t.type = true := by rw [ht]; rfl
    have ht3 : t.type.getD "" = "HLS" := by rw [ht]; rfl
    unfold resolveTarget
    simp [hu, ht2, ht3]
  · intro hu ht
    have ht2 : truthyOpt t.type = true := by rw [ht]; rfl
    have ht3 : t.type.getD "" = "HDS" := by rw [ht]; rfl
    have hne : t.type.getD "" ≠ "HLS" := by rw [ht3]; decide
    unfold resolveTarget
    simp [hu, ht2, ht3, hne]
  · intro hu ht
    have ht2 : truthyOpt t.type = true := by rw [ht]; rfl
    have ht3 : t.type.getD "" = "MPEG_DASH" := by rw [ht]; rfl
    have hne1 : t.type.getD "" ≠ "HLS" := by rw [ht3]; decide
    have hne2 : t.type.getD "" ≠ "HDS" := by rw [ht3]; decide
    unfold resolveTarget
    simp [hu, ht2, ht3, hne1, hne2]
  · intro hH hD hM f hf
    have hurl : truthyOpt t.url = true ∨ resolveTarget pH pD pM t = [] := by
      cases h : truthyOpt t.url
      · right
        unfold resolveTarget
        simp [h]
      · left
        rfl
    rcases hurl with hu | hempty
    · unfold resolveTarget at hf
      by_cases ht : truthyOpt t.type = true
      · simp only [hu, ht, not_true_eq_false, or_self, if_false] at hf
        by_cases e1 : t.type.getD "" = "HLS"
        · simp only [e1, if_true] at hf
          unfold nonFatal at hf
          cases hp : pH (t.url.getD "") with
          | none => rw [hp] at hf; simp at hf
          | some fs => rw [hp] at hf; exact hH _ _ hp f hf
        · by_cases e2 : t.type.getD "" = "HDS"
          · simp only [e1, e2, if_false, if_true] at hf
            unfold nonFatal at hf
            cases hp : pD (t.url.getD "") with
            | none => rw [hp] at hf; simp at hf
            | some fs => rw [hp] at hf; exact hD _ _ hp f hf
          · by_cases e3 : t.type.getD "" = "MPEG_DASH"
            · simp only [e1, e2, e3, if_false, if_true] at hf
              unfold nonFatal at hf
              cases hp : pM (t.url.getD "") with
              | none => rw [hp] at hf; simp at hf
              | some fs => rw [hp] at hf; exact hM _ _ hp f hf
            · simp only [e1, e2, e3, if_false] at hf
              simp at hf
              rw [hf]
              exact truthyOpt_getD hu
      · simp [hu, ht] at hf
    · rw [hempty] at hf
      simp at hf

theorem resolver_entry_characterization_witness :
    resolveTarget (fun _ => some [⟨"HLS", "http://s/1"⟩]) (fun _ => none) (fun _ => none)
        ⟨some "http://a", some "ZZZ"⟩ = [⟨"ZZZ", "http://a"⟩] :=
  (resolver_entry_characterization
      (fun _ => some [⟨"HLS", "http://s/1"⟩]) (fun _ => none) (fun _ => none)
      ⟨some "http://a", some "ZZZ"⟩).2.1
    (by decide) (by decide) (by decide) (by decide) (by decide)

theorem setdefaultAppend_nl (us : List String) (v : String) :
    setdefaultAppend [("nl", us)] "nl" v = [("nl", us ++ [v])] := by
  simp [setdefaultAppend]

theorem foldl_subtitleStep_nl (xs : List SubtitleRef) (us : List String) :
    xs.foldl subtitleStep [("nl", us)] =
      [("nl", us ++ (xs.filter subtitleRetained).map (fun s => s.url.getD ""))] := by
  induction xs generalizing us with
  | nil => simp
  | cons s xs ih =>
    by_cases h : subtitleRetained s = true
    · simp [subtitleStep, h, setdefaultAppend_nl, ih, List.filter_cons]
    · simp [subtitleStep, h, ih, List.filter_cons]

theorem foldl_subtitleStep_nil (xs : List SubtitleRef) :
    xs.foldl subtitleStep [] =
      (if xs.filter subtitleRetained = [] then []
       else [("nl", (xs.filter subtitleRetained).map (fun s => s.url.getD ""))]) := by
  induction xs with
  | nil => simp
  | cons s xs ih =>
    by_cases h : subtitleRetained s = true
    · have : subtitleStep [] s = [("nl", [s.url.getD ""])] := by
        simp [subtitleStep, h, setdefaultAppend]
      simp [this, foldl_subtitleStep_nl, List.filter_cons, h]
    · simp [subtitleStep, h, ih, List.filter_cons]

/-- C9: the subtitles mapping groups every retained track under the single
language key nl, a track is retained exactly when it has a non-empty URL
and the type CLOSED, and a non-list subtitleUrls value yields the empty
mapping. -/
theorem subtitles_nl_grouping (xs : List SubtitleRef) :
    extractSubtitles (.list xs) =
      (if xs.filter subtitleRetained = [] then []
       else [("nl", (xs.filter subtitleRetained).map (fun s => s.url.getD ""))]) ∧
    (∀ s : SubtitleRef, subtitleRetained s = true ↔
      ((∃ u, s.url = some u ∧ u ≠ "") ∧ s.type = some "CLOSED")) ∧
    extractSubtitles .nonList = [] := by
  refine ⟨foldl_subtitleStep_nil xs, ?_, rfl⟩
  intro s
  cases hu : s.url with
  | none => simp [subtitleRetained, truthyOpt, hu]
  | some u => simp [subtitleRetained, truthyOpt, hu]

end YdlCanvas

namespace YdlCanvas

/-- C3: a missing username aborts the handshake with a login-required
error before any network step; a credential POST after which the cookie
jar lacks ucid or gmid aborts with the missing-cookies extractor error
after the POST alone, so the saved-response fetch and the token exchange
are never executed; in both cases the session stays logged out. -/
theorem vrt_login_failure_paths (username password : Option String)
    (cookies : List String) (savedMatch : Option String)
    (parseAuth : String → Option AuthInfo) :
    (username = none →
      vrt_login username password cookies savedMatch parseAuth =
        ([], .error .loginRequired) ∧
      vrtLoggedIn (vrt_login username password cookies savedMatch parseAuth) = false) ∧
    (∀ u, username = some u →
      (cookies.contains "ucid" = false ∨ cookies.contains "gmid" = false) →
      vrt_login username password cookies savedMatch parseAuth =
        ([VrtStep.credentialPost],
         .error (.extractorError "Unable to login: missing cookies")) ∧
      vrtLoggedIn (vrt_login username password cookies savedMatch parseAuth) = false) := by
  constructor
  · intro h
    subst h
    exact ⟨rfl, rfl⟩
  · intro u hu hc
    subst hu
    have hres : vrt_login (some u) password cookies savedMatch parseAuth =
        ([VrtStep.credentialPost],
         .error (.extractorError "Unable to login: missing cookies")) := by
      have hcond : (¬ (cookies.contains "ucid" = true) ∨ ¬ (cookies.contains "gmid" = true)) := by
        rcases hc with h | h
        · exact Or.inl (by simpa using h)
        · exact Or.inr (by simpa using h)
      unfold vrt_login
      rw [if_pos hcond]
    refine ⟨hres, ?_⟩
    rw [hres]
    decide

theorem vrt_login_failure_paths_witness :
    vrt_login (some "user") (some "pw") [] none (fun _ => none) =
      ([VrtStep.credentialPost],
       .error (.extractorError "Unable to login: missing cookies")) :=
  ((vrt_login_failure_paths (some "user") (some "pw") [] none (fun _ => none)).2
     "user" rfl (Or.inl (by decide))).1

end YdlCanvas

namespace YdlVier

/-- C10: the login routine of VierIE returns immediately — it reads no
credentials, sends no request and raises nothing — and the logged-in flag
set to False by _real_initialize is still False after the login step of an
extraction. -/
theorem vier_login_is_noop (b : Bool) (site : String) :
    vier_login b site = (b, noEffects) ∧
    vierInitialLoggedIn = false ∧
    vierLoginStep vierInitialLoggedIn site = (false, noEffects) ∧
    (vier_login b site).2.credentialsRead = false ∧
    (vier_login b site).2.requests = [] ∧
    (vier_login b site).2.raised = false :=
  ⟨rfl, rfl, rfl, rfl, rfl, rfl⟩

theorem walkLoop_stop (fetch : String → String) (links : String → List String)
    (site program : String) (b : Bool) (fuel cur : Nat)
    (acc : List String) (fetched : List Nat)
    (h : b = true ∨ strContains (fetch (pageUrl site program cur)) meerMarker = false) :
    walkLoop fetch links site program b (fuel + 1) cur acc fetched =
      some (acc ++ (links (fetch (pageUrl site program cur))).map
              (fun u => "http://www." ++ site ++ ".be" ++ u),
            fetched ++ [cur]) := by
  unfold walkLoop
  rcases h with h | h <;> simp [h]

theorem walkLoop_cont (fetch : String → String) (links : String → List String)
    (site program : String) (fuel cur : Nat)
    (acc : List String) (fetched : List Nat)
    (h : strContains (fetch (pageUrl site program cur)) meerMarker = true) :
    walkLoop fetch links site program false (fuel + 1) cur acc fetched =
      walkLoop fetch links site program false fuel (cur + 1)
        (acc ++ (links (fetch (pageUrl site program cur))).map
           (fun u => "http://www." ++ site ++ ".be" ++ u))
        (fetched ++ [cur]) := by
  conv_lhs => unfold walkLoop
  simp [h]

/-- C2: without an explicit page the walker fetches pages 0, 1, 2, ... in
order and halts at the first page lacking the more-results marker; when
page 3 is the first such page, exactly pages 0 through 3 are fetched and
the entries are the concatenation of the child links of the four pages in
discovery order. -/
theorem walker_fetches_pages_0_to_3 (fetch : String → String)
    (links : String → List String) (site program : String) (fuel : Nat)
    (hfuel : 4 ≤ fuel)
    (h0 : strContains (fetch (pageUrl site program 0)) meerMarker = true)
    (h1 : strContains (fetch (pageUrl site program 1)) meerMarker = true)
    (h2 : strContains (fetch (pageUrl site program 2)) meerMarker = true)
    (h3 : strContains (fetch (pageUrl site program 3)) meerMarker = false) :
    vierVideosExtract fetch links site program none fuel =
      some (⟨program,
             (links (fetch (pageUrl site program 0)) ++
              links (fetch (pageUrl site program 1)) ++
              links (fetch (pageUrl site program 2)) ++
              links (fetch (pageUrl site program 3))).map
               (fun u => "http://www." ++ site ++ ".be" ++ u)⟩,
            [0, 1, 2, 3]) := by
  obtain ⟨k, hk⟩ := Nat.exists_eq_add_of_le hfuel
  subst hk
  unfold vierVideosExtract
  simp only [Option.getD_none]
  have e1 : 4 + k = 3 + k + 1 := by omega
  rw [e1, walkLoop_cont fetch links site program (3 + k) 0 _ _ h0]
  have e2 : 3 + k = 2 + k + 1 := by omega
  norm_num
  rw [e2, walkLoop_cont fetch links site program (2 + k) 1 _ _ h1]
  have e3 : 2 + k = 1 + k + 1 := by omega
  norm_num
  rw [e3, walkLoop_cont fetch links site program (1 + k) 2 _ _ h2]
  have e4 : 1 + k = k + 1 := by omega
  norm_num
  rw [e4, walkLoop_stop fetch links site program false k 3 _ _ (Or.inr h3)]
  simp [List.map_append, List.append_assoc]

theorem walker_fetches_pages_0_to_3_witness :
    vierVideosExtract
      (fun u => if u = pageUrl "vier" "p" 3 then "x" else "a>Meer<b")
      (fun _ => ["/p/videos/l"]) "vier" "p" none 4 =
      some (⟨"p", ["http://www.vier.be/p/videos/l", "http://www.vier.be/p/videos/l",
                   "http://www.vier.be/p/videos/l", "http://www.vier.be/p/videos/l"]⟩,
            [0, 1, 2, 3]) := by
  have h := walker_fetches_pages_0_to_3
    (fun u => if u = pageUrl "vier" "p" 3 then "x" else "a>Meer<b")
    (fun _ => ["/p/videos/l"]) "vier" "p" 4 (by norm_num)
    (by decide) (by decide) (by decide) (by decide)
  exact h.trans (by decide)

/-- C8 counterexample: with the explicit page number 0 the walker does not
stop after the single page 0 — the parsed page id 0 is falsy in the break
condition — so when page 0 carries the more-results marker the walker goes
on and fetches page 1 as well. -/
theorem explicit_page_zero_keeps_walking :
    vierVideosExtract
      (fun u => if u = pageUrl "vier" "p" 0 then "a>Meer<b" else "x")
      (fun _ => []) "vier" "p" (some 0) 2 =
      some (⟨"p-page0", []⟩, [0, 1]) ∧ ([0, 1] : List Nat) ≠ [0] :=
  ⟨by decide, by decide⟩

/-- C8 amended: with an explicit non-zero page number the walker fetches
exactly that single page, extracts its child links, and keys the listing
by the program name suffixed with the page number; with the explicit page
0 the suffix is applied but the walk can continue past page 0; without an
explicit page the playlist identifier is the bare program name. -/
theorem explicit_page_single_fetch (fetch : String → String)
    (links : String → List String) (site program : String) (n : Nat)
    (hn : n ≠ 0) (fuel : Nat) (hfuel : 1 ≤ fuel) :
    vierVideosExtract fetch links site program (some n) fuel =
      some (⟨program ++ "-page" ++ toString n,
             (links (fetch (pageUrl site program n))).map
               (fun u => "http://www." ++ site ++ ".be" ++ u)⟩,
            [n]) ∧
    (∀ fuel2 r, vierVideosExtract fetch links site program none fuel2 = some r →
      r.1.playlist_id = program) := by
  constructor
  · obtain ⟨k, hk⟩ := Nat.exists_eq_add_of_le hfuel
    subst hk
    unfold vierVideosExtract
    simp only [Option.getD_some]
    have hb : decide (n ≠ 0) = true := by simp [hn]
    have e1 : 1 + k = k + 1 := by omega
    rw [hb, e1, walkLoop_stop fetch links site program true k n [] [] (Or.inl rfl)]
    simp
  · intro fuel2 r h
    unfold vierVideosExtract at h
    simp only [Option.getD_none, Option.map_eq_some'] at h
    obtain ⟨a, ha, hr⟩ := h
    rw [← hr]

theorem explicit_page_single_fetch_witness :
    vierVideosExtract (fun _ => "x") (fun _ => ["/q/videos/v"]) "vier" "q" (some 6) 1 =
      some (⟨"q-page6", ["http://www.vier.be/q/videos/v"]⟩, [6]) := by
  have h := (explicit_page_single_fetch (fun _ => "x") (fun _ => ["/q/videos/v"])
    "vier" "q" 6 (by norm_num) 1 (by norm_num)).1
  exact h.trans (by decide)

end YdlVier
